import Mathlib

/-
Shallow embedding of the weather-forecast service
(src/weather/src/weather.py and src/weather/src/app.py).

Conventions of the embedding:
* Python lists become `List`; an index access `xs[i]` becomes `xs[i]?`
  (an `IndexError` is the `none` case and surfaces as
  `Except.error "list index out of range"`, the text of Python's
  `IndexError` caught by `str(e)` in `get_forecast`).
* A Python `dict` built by repeated `d[k] = v` assignments becomes an
  association list together with `dictInsert`, which overwrites the
  value of an existing key in place and appends a fresh key at the end,
  exactly as CPython dicts behave.
* Numeric weather values are only moved around, never computed with, so
  they are embedded as `Int`; the weather code is an `Int` as in the
  source table.
* `datetime.now(pytz.timezone(..)).hour` is nondeterministic input and
  becomes the explicit parameter `current_hour`.
* The geocoding collaborator (`geopy.Nominatim`) is external; its result
  is injected as an `Option Coordinates` argument (`none` models
  "location is None").  The forecast provider's payload is injected as
  the `RawForecast` argument.
-/

/-- Latitude/longitude pair returned by the geocoder.  The service never
inspects the values, it only threads them through, so the component type
is irrelevant to every claim; `Int` keeps the embedding decidable. -/
structure Coordinates where
  latitude : Int
  longitude : Int
deriving DecidableEq

/-- The `weather_data['hourly']` parallel arrays used by
`Weather._clean_weather_data` (weather.py lines 127-136). -/
structure HourlyRaw where
  time : List String
  temperature_2m : List Int
  precipitation : List Int
  weathercode : List Int
  windspeed_10m : List Int
  winddirection_10m : List Int
  pressure_msl : List Int
  relativehumidity_2m : List Int
deriving DecidableEq

/-- The `weather_data['daily']` parallel arrays used by
`Weather._clean_weather_data` (weather.py lines 117-125). -/
structure DailyRaw where
  time : List String
  temperature_2m_max : List Int
  temperature_2m_min : List Int
  precipitation_sum : List Int
  weathercode : List Int
  windspeed_10m_max : List Int
  winddirection_10m_dominant : List Int
deriving DecidableEq

/-- The provider payload consumed by `Weather._clean_weather_data`. -/
structure RawForecast where
  daily : DailyRaw
  hourly : HourlyRaw
deriving DecidableEq

/-- One value of the cleaned hourly mapping (weather.py lines 128-136). -/
structure HourlyRec where
  temp : Int
  niederschlag : Int
  wetter : String
  wind_geschwindigkeit : Int
  wind_richtung : Int
  luftdruck : Int
  luftfeuchte : Int
deriving DecidableEq

/-- One value of the cleaned daily mapping (weather.py lines 118-125). -/
structure DailyRec where
  max_temp : Int
  min_temp : Int
  niederschlag : Int
  wetter : String
  wind_geschwindigkeit : Int
  wind_richtung : Int
deriving DecidableEq

/-- The `cleaned_data` dict of `_clean_weather_data`: the two keyed
mappings, embedded as insertion-ordered association lists. -/
structure CleanedData where
  hourly : List (String × HourlyRec)
  daily : List (String × DailyRec)
deriving DecidableEq

/-- The `cleaned_data` dict after `get_forecast` added the echoed
`city`, `country` and `ai_text` entries (weather.py lines 48-50). -/
structure ForecastData where
  hourly : List (String × HourlyRec)
  daily : List (String × DailyRec)
  city : String
  country : String
  ai_text : String
deriving DecidableEq

/-- The `response_dict` envelope `{status, message, data}`.  `data` is
`none` while it still holds the initial empty dict `{}` and `some` once
`get_forecast` stored the cleaned payload in it. -/
structure ResponseDict where
  status : String
  message : String
  data : Option ForecastData
deriving DecidableEq

/-- Python `d[k] = v` on an insertion-ordered dict represented as an
association list: overwrite the first (for dicts: only) binding of an
existing key in place, append a fresh key at the end. -/
def dictInsert {α : Type} : List (String × α) → String → α → List (String × α)
  | [], k, v => [(k, v)]
  | (k0, v0) :: rest, k, v =>
    if k0 = k then (k0, v) :: rest else (k0, v0) :: dictInsert rest k v

/-- The key sequence of a dict represented as an association list. -/
def dictKeys {α : Type} (d : List (String × α)) : List String :=
  d.map Prod.fst

namespace Weather

/-- The literal `weather_dict` table of
`Weather._get_string_for_weather_code` (weather.py lines 165-266). -/
def weather_dict : List (Int × String) :=
  [ (0, "Wolkenentwicklung nicht bekannt, letzte Stunde"),
    (1, "Abnehmende Bewölkung, letzte Stunde"),
    (2, "Keine Bewölkungsänderung, letzte Stunde"),
    (3, "Zunehmende Bewölkung, letzte Stunde"),
    (4, "Sicht durch Rauch reduziert"),
    (5, "Dunst"),
    (6, "Schwebender Staub, ohne Windeinwirkung"),
    (7, "Staub oder Sand, vom Wind gehoben"),
    (8, "Staubteufel"),
    (9, "Staub- oder Sandsturm an der Station, oder in Sichtweite"),
    (10, "feuchter Dunst/schwacher Nebel"),
    (11, "Nebelschwaden am Boden"),
    (12, "Durchgehend Bodennebel"),
    (13, "Wetterleuchten (kein Donner)"),
    (14, "Niederschlag sichtbar, erreicht nicht den Boden"),
    (15, "Niederschlag in der Ferne, erreicht Boden"),
    (16, "Niederschlag in der Nähe, erreicht Boden"),
    (17, "Gewitter hörbar, kein Niederschlag"),
    (18, "Markante Windböen"),
    (19, "Tornado, Wasserhose oder Funnel"),
    (20, "Nach Sprühregen"),
    (21, "Nach Regen"),
    (22, "Nach Schnee"),
    (23, "Nach Schneeregen"),
    (24, "Nach gefrierendem Regen"),
    (25, "Nach Regenschauern"),
    (26, "Nach Schneeschauern"),
    (27, "Nach Hagelschauern"),
    (28, "Nach Nebel"),
    (29, "Nach Gewitter"),
    (30, "Leichter/mäßiger Sandsturm, nachlassend"),
    (31, "Leichter/mäßiger Sandsturm, gleichbleibend"),
    (32, "Leichter/mäßiger Sandsturm, zunehmend"),
    (33, "Schwerer Sandsturm, nachlassend"),
    (34, "Schwerer Sandsturm, gleichbleibend"),
    (35, "Schwerer Sandsturm, zunehmend"),
    (36, "Leichtes/mäßiges Schneefegen"),
    (37, "Starkes Schneefegen"),
    (38, "Leichtes/mäßiges Schneetreiben"),
    (39, "Starkes Schneetreiben"),
    (40, "Nebel in der Ferne"),
    (41, "Nebelschwaden"),
    (42, "Nebel, Himmel sichtbar, abnehmend"),
    (43, "Nebel, Himmel verdeckt, abnehmend"),
    (44, "Nebel, Himmel sichtbar, gleichbleibend"),
    (45, "Nebel, Himmel verdeckt, gleichbleibend"),
    (46, "Nebel, Himmel sichtbar, zunehmend"),
    (47, "Nebel, Himmel verdeckt, zunehmend"),
    (48, "Raueis mit Nebel, Himmel sichtbar"),
    (49, "Raueis mit Nebel, Himmel verdeckt"),
    (50, "Leichter Sprühregen, unterbrochen"),
    (51, "Leichter Sprühregen, anhaltend"),
    (52, "Mäßiger Sprühregen, unterbrochen"),
    (53, "Mäßiger Sprühregen, anhaltend"),
    (54, "Starker Sprühregen, unterbrochen"),
    (55, "Starker Sprühregen, anhaltend"),
    (56, "Gefrierender Sprühregen, leicht"),
    (57, "Gefrierender Sprühregen, mäßig/stark"),
    (58, "Leichter Regen und Sprühregen"),
    (59, "Mäßiger/Starker Regen und Sprühregen"),
    (60, "Leichter Regen, unterbrochen"),
    (61, "Leichter Regen, anhaltend"),
    (62, "Mäßiger Regen, unterbrochen"),
    (63, "Mäßiger Regen, anhaltend"),
    (64, "Starker Regen, unterbrochen"),
    (65, "Starker Regen, anhaltend"),
    (66, "Gefrierender leichter Regen"),
    (67, "Gefrierender mäßiger/starker Regen"),
    (68, "Leichter Schneeregen"),
    (69, "Mäßiger/Starker Schneeregen"),
    (70, "Leichter Schneefall, unterbrochen"),
    (71, "Leichter Schneefall, anhaltend"),
    (72, "Mäßiger Schneefall, unterbrochen"),
    (73, "Mäßiger Schneefall, anhaltend"),
    (74, "Starker Schneefall, unterbrochen"),
    (75, "Starker Schneefall, anhaltend"),
    (76, "Eisnadeln"),
    (77, "Schneegriesel"),
    (78, "Schneekristalle"),
    (79, "Eiskörner"),
    (80, "Leichte Regenschauer"),
    (81, "Starke Regenschauer"),
    (82, "Sintflutartige Regenschauer"),
    (83, "Leichte Schneeregenschauer"),
    (84, "Starke Schneeregenschauer"),
    (85, "Leichte Schneeschauer"),
    (86, "Starke Schneeschauer"),
    (87, "Leichte Graupelschauer"),
    (88, "Starke Graupelschauer"),
    (89, "Leichte Hagelschauer ohne Gewitter"),
    (90, "Starke Hagelschauer ohne Gewitter"),
    (91, "Leichter Regen, letzte Stunde Gewitter hörbar"),
    (92, "Starker Regen, letzte Stunde Gewitter hörbar"),
    (93, "Leichter Schnee/Regen-Hagel, letzte Stunde Gewitter hörbar"),
    (94, "Starker Schnee/Regen-Hagel, letzte Stunde Gewitter hörbar"),
    (95, "Leichtes/mäßiges Gewitter mit Regen/Schnee"),
    (96, "Leichtes/mäßiges Gewitter mit Hagel"),
    (97, "Schweres Gewitter mit Regen/Schnee"),
    (98, "Gewitter mit Sandsturm"),
    (99, "Schweres Gewitter mit Hagel") ]

/-- `Weather._get_string_for_weather_code`: Python's
`weather_dict.get(weather_code, "unbekannt")`. -/
def get_string_for_weather_code (weather_code : Int) : String :=
  (weather_dict.lookup weather_code).getD "unbekannt"

/-- The dict literal of the hourly loop body (weather.py lines 128-136):
all seven value arrays are indexed at `i`; any out-of-bounds access is an
`IndexError`, i.e. `none`. -/
def mkHourlyRec (w : HourlyRaw) (i : Nat) : Option HourlyRec :=
  match w.temperature_2m[i]?, w.precipitation[i]?, w.weathercode[i]?,
      w.windspeed_10m[i]?, w.winddirection_10m[i]?,
      w.pressure_msl[i]?, w.relativehumidity_2m[i]? with
  | some a, some b, some c, some d, some e, some f, some g =>
    some
      { temp := a
        niederschlag := b
        wetter := get_string_for_weather_code c
        wind_geschwindigkeit := d
        wind_richtung := e
        luftdruck := f
        luftfeuchte := g }
  | _, _, _, _, _, _, _ => none

/-- The dict literal of the daily loop body (weather.py lines 118-125). -/
def mkDailyRec (d : DailyRaw) (i : Nat) : Option DailyRec :=
  match d.temperature_2m_max[i]?, d.temperature_2m_min[i]?,
      d.precipitation_sum[i]?, d.weathercode[i]?,
      d.windspeed_10m_max[i]?, d.winddirection_10m_dominant[i]? with
  | some a, some b, some c, some d, some e, some f =>
    some
      { max_temp := a
        min_temp := b
        niederschlag := c
        wetter := get_string_for_weather_code d
        wind_geschwindigkeit := e
        wind_richtung := f }
  | _, _, _, _, _, _ => none

/-- One `for i in idxs:` cleaning loop: at each index fetch the key
`time[i]` and the record of values at `i`; the first out-of-bounds
access aborts the whole cleaning with Python's `IndexError` text,
otherwise `cleaned[key] = record` is performed on the accumulator. -/
def buildGo {α : Type} (keyAt : Nat → Option String) (recAt : Nat → Option α) :
    List Nat → List (String × α) → Except String (List (String × α))
  | [], acc => Except.ok acc
  | i :: rest, acc =>
    match keyAt i, recAt i with
    | some t, some r => buildGo keyAt recAt rest (dictInsert acc t r)
    | _, _ => Except.error "list index out of range"

/-- The daily loop of `_clean_weather_data` (weather.py lines 117-125):
`for i in range(0, len(weather_data['daily']['time']) - 1)`. -/
def dailyPass (d : DailyRaw) : Except String (List (String × DailyRec)) :=
  buildGo (fun i => d.time[i]?) (mkDailyRec d) (List.range (d.time.length - 1)) []

/-- The hourly loop of `_clean_weather_data` (weather.py lines 127-136):
`for i in range(current_hour, current_hour + 12)`. -/
def hourlyPass (w : HourlyRaw) (current_hour : Nat) :
    Except String (List (String × HourlyRec)) :=
  buildGo (fun i => w.time[i]?) (mkHourlyRec w) (List.range' current_hour 12) []

/-- `Weather._clean_weather_data` (weather.py lines 100-138): the daily
loop runs first, then the hourly loop; any uncaught `IndexError`
propagates out of the method. -/
def clean_weather_data (weather_data : RawForecast) (current_hour : Nat) :
    Except String CleanedData :=
  match dailyPass weather_data.daily with
  | Except.error e => Except.error e
  | Except.ok d =>
    match hourlyPass weather_data.hourly current_hour with
    | Except.error e => Except.error e
    | Except.ok h => Except.ok { hourly := h, daily := d }

/-- `Weather._get_ai_text` (weather.py lines 140-154): the body is a
stub that returns the empty string unconditionally. -/
def get_ai_text (_weather_data : CleanedData) : String :=
  ""

/-- `Weather._get_coordinates_for_city` (weather.py lines 58-77) with
the external geocoder's answer injected: `location is None` raises the
`ValueError` whose text names the city and the country. -/
def get_coordinates_for_city (geocode : Option Coordinates)
    (city country : String) : Except String Coordinates :=
  match geocode with
  | none =>
    Except.error
      ("We could not find the coordinates for the City: " ++ city ++
        " in the Country: " ++ country)
  | some location => Except.ok location

/-- `Weather.get_forecast` (weather.py lines 22-55).  The geocoder's
answer and the provider payload are injected; `current_hour` stands for
`datetime.now(pytz.timezone('Europe/Berlin')).hour`.  Returns the
`(response_dict, status_code)` pair. -/
def get_forecast (geocode : Option Coordinates) (raw : RawForecast)
    (current_hour : Nat) (city country : String) : ResponseDict × Nat :=
  match get_coordinates_for_city geocode city country with
  | Except.error e =>
    ({ status := "error", message := e, data := none }, 400)
  | Except.ok _ =>
    match clean_weather_data raw current_hour with
    | Except.error e =>
      ({ status := "error", message := e, data := none }, 500)
    | Except.ok cleaned =>
      ({ status := "success"
         message := "The weather data was successfully retrieved"
         data := some
           { hourly := cleaned.hourly
             daily := cleaned.daily
             city := city
             country := country
             ai_text := get_ai_text cleaned } }, 200)

end Weather

namespace App

/-- The `missing_params` list of app.py lines 28-31: iterate
`['city', 'country']` in order and collect the names of absent request
parameters. -/
def missing_params (city country : Option String) : List String :=
  (if city.isNone then ["city"] else []) ++
    (if country.isNone then ["country"] else [])

/-- Result of the `/get_forecast` route: either a `jsonify(...), code`
pair or the rendered forecast page. -/
inductive AppResponse where
  | json : ResponseDict → Nat → AppResponse
  | page : Option ForecastData → AppResponse
deriving DecidableEq

/-- The `/get_forecast` route of app.py (lines 17-42).  When a request
parameter is absent (`None`), the route answers 400 with the joined
`missing_params` message and the still-empty `data`; otherwise it calls
`Weather.get_forecast`, forwards any non-200 envelope as JSON, and
renders the page with the envelope's `data` on success. -/
def get_forecast (geocode : Option Coordinates) (raw : RawForecast)
    (current_hour : Nat) (city country : Option String) : AppResponse :=
  match city, country with
  | some c, some k =>
    let forecast := Weather.get_forecast geocode raw current_hour c k
    if forecast.2 ≠ 200 then AppResponse.json forecast.1 forecast.2
    else AppResponse.page forecast.1.data
  | _, _ =>
    AppResponse.json
      { status := "error"
        message := "Missing parameters: " ++
          String.intercalate ", " (missing_params city country)
        data := none } 400

end App

namespace Weather

/-- The record the hourly loop body builds at index `i`, written with
total default-valued accesses; by `mkHourlyRec_eq_some` it is what
`mkHourlyRec` yields whenever `i` is in bounds for every hourly array. -/
def hourlyRecD (w : HourlyRaw) (i : Nat) : HourlyRec :=
  { temp := w.temperature_2m.getD i 0
    niederschlag := w.precipitation.getD i 0
    wetter := get_string_for_weather_code (w.weathercode.getD i 0)
    wind_geschwindigkeit := w.windspeed_10m.getD i 0
    wind_richtung := w.winddirection_10m.getD i 0
    luftdruck := w.pressure_msl.getD i 0
    luftfeuchte := w.relativehumidity_2m.getD i 0 }

/-- The record the daily loop body builds at index `i`, written with
total default-valued accesses; by `mkDailyRec_eq_some` it is what
`mkDailyRec` yields whenever `i` is in bounds for every daily array. -/
def dailyRecD (d : DailyRaw) (i : Nat) : DailyRec :=
  { max_temp := d.temperature_2m_max.getD i 0
    min_temp := d.temperature_2m_min.getD i 0
    niederschlag := d.precipitation_sum.getD i 0
    wetter := get_string_for_weather_code (d.weathercode.getD i 0)
    wind_geschwindigkeit := d.windspeed_10m_max.getD i 0
    wind_richtung := d.winddirection_10m_dominant.getD i 0 }

end Weather

/-! ### Concrete sample payloads for witnesses and counterexamples -/

/-- A well-formed daily payload with two timestamps. -/
def dailyExample : DailyRaw :=
  { time := ["d0", "d1"]
    temperature_2m_max := [5, 6]
    temperature_2m_min := [1, 2]
    precipitation_sum := [0, 3]
    weathercode := [61, 95]
    windspeed_10m_max := [10, 20]
    winddirection_10m_dominant := [180, 90] }

/-- A well-formed hourly payload with thirteen distinct timestamps. -/
def hourlyExample : HourlyRaw :=
  { time := ["h0", "h1", "h2", "h3", "h4", "h5", "h6", "h7", "h8", "h9",
      "h10", "h11", "h12"]
    temperature_2m := [0, 1, 2, 3, 4, 5, 6, 7, 8, 9, 10, 11, 12]
    precipitation := [0, 0, 0, 0, 0, 0, 1, 1, 1, 1, 2, 2, 2]
    weathercode := [0, 1, 2, 3, 45, 61, 63, 65, 71, 80, 95, 99, 100]
    windspeed_10m := [5, 5, 5, 5, 5, 5, 5, 5, 5, 5, 5, 5, 5]
    winddirection_10m := [0, 30, 60, 90, 120, 150, 180, 210, 240, 270,
      300, 330, 0]
    pressure_msl := [1013, 1013, 1013, 1013, 1013, 1013, 1013, 1013, 1013,
      1013, 1013, 1013, 1013]
    relativehumidity_2m := [50, 50, 50, 50, 50, 50, 50, 50, 50, 50, 50,
      50, 50] }

/-- A well-formed raw forecast: two daily timestamps, thirteen hourly
entries from hour 0 onward. -/
def wExample : RawForecast :=
  { daily := dailyExample, hourly := hourlyExample }

/-- An hourly payload whose arrays all have length 3, too short for any
12-index hourly pass. -/
def hourlyShort : HourlyRaw :=
  { time := ["h0", "h1", "h2"]
    temperature_2m := [0, 1, 2]
    precipitation := [0, 0, 0]
    weathercode := [0, 1, 2]
    windspeed_10m := [5, 5, 5]
    winddirection_10m := [0, 30, 60]
    pressure_msl := [1013, 1013, 1013]
    relativehumidity_2m := [50, 50, 50] }

/-- A raw forecast whose hourly arrays are too short for the hourly pass. -/
def wShort : RawForecast :=
  { daily := dailyExample, hourly := hourlyShort }

/-- An hourly payload with twelve entries that all carry the same
timestamp `"h"`: every array has length 12, yet the twelve dict
assignments hit a single key. -/
def hourlyDup : HourlyRaw :=
  { time := ["h", "h", "h", "h", "h", "h", "h", "h", "h", "h", "h", "h"]
    temperature_2m := [0, 1, 2, 3, 4, 5, 6, 7, 8, 9, 10, 11]
    precipitation := [0, 0, 0, 0, 0, 0, 0, 0, 0, 0, 0, 0]
    weathercode := [0, 0, 0, 0, 0, 0, 0, 0, 0, 0, 0, 0]
    windspeed_10m := [5, 5, 5, 5, 5, 5, 5, 5, 5, 5, 5, 5]
    winddirection_10m := [0, 0, 0, 0, 0, 0, 0, 0, 0, 0, 0, 0]
    pressure_msl := [1013, 1013, 1013, 1013, 1013, 1013, 1013, 1013, 1013,
      1013, 1013, 1013]
    relativehumidity_2m := [50, 50, 50, 50, 50, 50, 50, 50, 50, 50, 50, 50] }

/-- A raw forecast with duplicated hourly timestamps. -/
def wDup : RawForecast :=
  { daily := dailyExample, hourly := hourlyDup }

/-- A daily payload with three timestamps of which the first two are the
same string, every array of length 3. -/
def dailyDup : DailyRaw :=
  { time := ["d", "d", "e"]
    temperature_2m_max := [5, 6, 7]
    temperature_2m_min := [1, 2, 3]
    precipitation_sum := [0, 3, 1]
    weathercode := [61, 95, 0]
    windspeed_10m_max := [10, 20, 30]
    winddirection_10m_dominant := [180, 90, 0] }

/-- A raw forecast with duplicated daily timestamps. -/
def wDupDaily : RawForecast :=
  { daily := dailyDup, hourly := hourlyExample }

/-- A daily payload with a single timestamp: the daily loop range
`range(0, 1 - 1)` is empty. -/
def dailySmall : DailyRaw :=
  { time := ["d0"]
    temperature_2m_max := [5]
    temperature_2m_min := [1]
    precipitation_sum := [0]
    weathercode := [61]
    windspeed_10m_max := [10]
    winddirection_10m_dominant := [180] }

/-- A raw forecast with one daily timestamp. -/
def wSmall : RawForecast :=
  { daily := dailySmall, hourly := hourlyExample }

/-- A sample geocoder answer. -/
def coordExample : Coordinates :=
  { latitude := 52, longitude := 13 }

/-! ### Helper lemmas about the dict embedding and the cleaning loops -/

open Weather

theorem dictInsert_of_not_mem {α : Type} {d : List (String × α)} {k : String}
    (v : α) (h : k ∉ dictKeys d) : dictInsert d k v = d ++ [(k, v)] := by
  induction d with
  | nil => rfl
  | cons p rest ih =>
    obtain ⟨k0, v0⟩ := p
    have hk : ¬k0 = k := by
      intro hk
      exact h (by simp [dictKeys, hk])
    have hrest : k ∉ dictKeys rest := by
      intro hmem
      exact h (by simp [dictKeys] at hmem ⊢; exact Or.inr hmem)
    simp [dictInsert, hk, ih hrest]

theorem dictKeys_append {α : Type} (d e : List (String × α)) :
    dictKeys (d ++ e) = dictKeys d ++ dictKeys e := by
  simp [dictKeys]

theorem buildGo_eq_append {α : Type} (keyAt : Nat → Option String)
    (recAt : Nat → Option α) (kf : Nat → String) (rf : Nat → α)
    (idxs : List Nat) (acc : List (String × α))
    (hk : ∀ i ∈ idxs, keyAt i = some (kf i))
    (hr : ∀ i ∈ idxs, recAt i = some (rf i))
    (hacc : ∀ i ∈ idxs, kf i ∉ dictKeys acc)
    (hnd : (idxs.map kf).Nodup) :
    buildGo keyAt recAt idxs acc =
      Except.ok (acc ++ idxs.map fun i => (kf i, rf i)) := by
  induction idxs generalizing acc with
  | nil => simp [buildGo]
  | cons i rest ih =>
    have hki := hk i (by simp)
    have hri := hr i (by simp)
    rw [buildGo, hki, hri]
    have hfresh : kf i ∉ dictKeys acc := hacc i (by simp)
    show buildGo keyAt recAt rest (dictInsert acc (kf i) (rf i)) = _
    rw [dictInsert_of_not_mem (rf i) hfresh]
    have hnd' : (rest.map kf).Nodup := (List.nodup_cons.mp hnd).2
    have hne : ∀ j ∈ rest, kf j ≠ kf i := by
      intro j hj hEq
      exact (List.nodup_cons.mp hnd).1 (hEq ▸ List.mem_map_of_mem kf hj)
    have := ih (acc ++ [(kf i, rf i)])
      (fun j hj => hk j (by simp [hj]))
      (fun j hj => hr j (by simp [hj]))
      (fun j hj => by
        rw [dictKeys_append]
        intro hmem
        rcases List.mem_append.mp hmem with hmem | hmem
        · exact hacc j (by simp [hj]) hmem
        · simp [dictKeys] at hmem
          exact hne j hj hmem)
      hnd'
    rw [this]
    simp

theorem buildGo_error_string {α : Type} (keyAt : Nat → Option String)
    (recAt : Nat → Option α) (idxs : List Nat) (acc : List (String × α))
    (e : String) (h : buildGo keyAt recAt idxs acc = Except.error e) :
    e = "list index out of range" := by
  induction idxs generalizing acc with
  | nil => simp [buildGo] at h
  | cons i rest ih =>
    rw [buildGo] at h
    cases hki : keyAt i with
    | none =>
      rw [hki] at h
      cases recAt i <;> simp_all
    | some t =>
      cases hri : recAt i with
      | none => rw [hki, hri] at h; simp_all
      | some r =>
        rw [hki, hri] at h
        exact ih _ h

theorem buildGo_ok_mem {α : Type} (keyAt : Nat → Option String)
    (recAt : Nat → Option α) (idxs : List Nat) (acc : List (String × α))
    (m : List (String × α)) (h : buildGo keyAt recAt idxs acc = Except.ok m) :
    ∀ i ∈ idxs, (keyAt i).isSome ∧ (recAt i).isSome := by
  induction idxs generalizing acc with
  | nil => intro i hi; simp at hi
  | cons i rest ih =>
    rw [buildGo] at h
    cases hki : keyAt i with
    | none =>
      rw [hki] at h
      cases recAt i <;> simp_all
    | some t =>
      cases hri : recAt i with
      | none => rw [hki, hri] at h; simp_all
      | some r =>
        rw [hki, hri] at h
        intro j hj
        rcases List.mem_cons.mp hj with hj | hj
        · subst hj; simp [hki, hri]
        · exact ih _ h j hj

theorem buildGo_ok_exists {α : Type} (keyAt : Nat → Option String)
    (recAt : Nat → Option α) (idxs : List Nat) (acc : List (String × α))
    (h : ∀ i ∈ idxs, (keyAt i).isSome ∧ (recAt i).isSome) :
    ∃ m, buildGo keyAt recAt idxs acc = Except.ok m := by
  induction idxs generalizing acc with
  | nil => exact ⟨acc, rfl⟩
  | cons i rest ih =>
    obtain ⟨hki, hri⟩ := h i (by simp)
    obtain ⟨t, ht⟩ := Option.isSome_iff_exists.mp hki
    obtain ⟨r, hr⟩ := Option.isSome_iff_exists.mp hri
    rw [buildGo, ht, hr]
    exact ih _ (fun j hj => h j (by simp [hj]))

theorem take_drop_eq_map_getD (l : List String) :
    ∀ (n start : Nat), start + n ≤ l.length →
      (l.drop start).take n = (List.range' start n).map fun i => l.getD i "" := by
  intro n
  induction n with
  | zero => simp
  | succ n ih =>
    intro start hle
    have hlt : start < l.length := by omega
    rw [List.drop_eq_getElem_cons hlt, List.range'_succ]
    simp only [List.take_succ_cons, List.map_cons]
    rw [ih (start + 1) (by omega)]
    congr 1
    rw [List.getD_eq_getElem?_getD, List.getElem?_eq_getElem hlt]
    rfl

theorem mkHourlyRec_eq_some (w : HourlyRaw) (i : Nat)
    (h2 : i < w.temperature_2m.length) (h3 : i < w.precipitation.length)
    (h4 : i < w.weathercode.length) (h5 : i < w.windspeed_10m.length)
    (h6 : i < w.winddirection_10m.length) (h7 : i < w.pressure_msl.length)
    (h8 : i < w.relativehumidity_2m.length) :
    mkHourlyRec w i = some (hourlyRecD w i) := by
  rw [mkHourlyRec, List.getElem?_eq_getElem h2, List.getElem?_eq_getElem h3,
    List.getElem?_eq_getElem h4, List.getElem?_eq_getElem h5,
    List.getElem?_eq_getElem h6, List.getElem?_eq_getElem h7,
    List.getElem?_eq_getElem h8]
  simp [hourlyRecD, List.getD_eq_getElem?_getD, List.getElem?_eq_getElem,
    h2, h3, h4, h5, h6, h7, h8]

theorem mkDailyRec_eq_some (d : DailyRaw) (i : Nat)
    (h2 : i < d.temperature_2m_max.length) (h3 : i < d.temperature_2m_min.length)
    (h4 : i < d.precipitation_sum.length) (h5 : i < d.weathercode.length)
    (h6 : i < d.windspeed_10m_max.length)
    (h7 : i < d.winddirection_10m_dominant.length) :
    mkDailyRec d i = some (dailyRecD d i) := by
  rw [mkDailyRec, List.getElem?_eq_getElem h2, List.getElem?_eq_getElem h3,
    List.getElem?_eq_getElem h4, List.getElem?_eq_getElem h5,
    List.getElem?_eq_getElem h6, List.getElem?_eq_getElem h7]
  simp [dailyRecD, List.getD_eq_getElem?_getD, List.getElem?_eq_getElem,
    h2, h3, h4, h5, h6, h7]

theorem mkHourlyRec_isSome_bounds (w : HourlyRaw) (i : Nat)
    (h : (mkHourlyRec w i).isSome) :
    i < w.temperature_2m.length ∧ i < w.precipitation.length ∧
      i < w.weathercode.length ∧ i < w.windspeed_10m.length ∧
      i < w.winddirection_10m.length ∧ i < w.pressure_msl.length ∧
      i < w.relativehumidity_2m.length := by
  rw [mkHourlyRec] at h
  split at h
  · rename_i a b c d e f g h1 h2 h3 h4 h5 h6 h7
    exact ⟨(List.getElem?_eq_some.mp h1).1, (List.getElem?_eq_some.mp h2).1,
      (List.getElem?_eq_some.mp h3).1, (List.getElem?_eq_some.mp h4).1,
      (List.getElem?_eq_some.mp h5).1, (List.getElem?_eq_some.mp h6).1,
      (List.getElem?_eq_some.mp h7).1⟩
  · simp at h

theorem lookup_eq_none_of {l : List (Int × String)} {c : Int}
    (h : ∀ p ∈ l, p.1 ≠ c) : l.lookup c = none := by
  induction l with
  | nil => rfl
  | cons p rest ih =>
    obtain ⟨k, v⟩ := p
    have hk : (c == k) = false := by
      have : k ≠ c := by simpa using h (k, v) (by simp)
      simp [this]
      exact fun hEq => this hEq.symm
    rw [List.lookup_cons, hk]
    exact ih fun q hq => h q (by simp [hq])

theorem clean_weather_data_error_string (w : RawForecast) (H : Nat)
    (e : String) (h : clean_weather_data w H = Except.error e) :
    e = "list index out of range" := by
  rw [clean_weather_data] at h
  cases hd : dailyPass w.daily with
  | error e1 =>
    rw [hd] at h
    cases h
    exact buildGo_error_string _ _ _ _ _ hd
  | ok d =>
    rw [hd] at h
    cases hh : hourlyPass w.hourly H with
    | error e2 =>
      rw [hh] at h
      cases h
      exact buildGo_error_string _ _ _ _ _ hh
    | ok hm => rw [hh] at h; cases h

theorem coords_message_ne_empty (city country : String) :
    ("We could not find the coordinates for the City: " ++ city ++
      " in the Country: " ++ country) ≠ "" := by
  intro h
  have h0 := congrArg String.length h
  simp only [String.length_append] at h0
  have h1 : 0 < "We could not find the coordinates for the City: ".length := by
    decide
  have h2 : "".length = 0 := rfl
  omega

/-! ### Claim theorems -/

/-- C4: the weather-code translator is a total function over the
integers: every code 0..99 is mapped to its entry in the fixed
`weather_dict` table, and every integer outside the table is mapped to
the sentinel string `"unbekannt"`. -/
theorem c4_translator_total :
    (∀ c : Int, 0 ≤ c → c ≤ 99 →
      ∃ s, weather_dict.lookup c = some s ∧
        get_string_for_weather_code c = s) ∧
    (∀ c : Int, c < 0 ∨ 99 < c →
      get_string_for_weather_code c = "unbekannt") := by
  constructor
  · intro c h0 h99
    interval_cases c <;> exact ⟨_, rfl, rfl⟩
  · intro c hc
    have hb : ∀ p ∈ weather_dict, 0 ≤ p.1 ∧ p.1 ≤ 99 := by decide
    have hnone : weather_dict.lookup c = none :=
      lookup_eq_none_of fun p hp => by have := hb p hp; omega
    rw [get_string_for_weather_code, hnone]
    rfl

/-- Witness for C4: code 7 is translated through the table, code 9999
falls back to the sentinel. -/
theorem c4_witness :
    ((0:Int) ≤ 7 ∧ (7:Int) ≤ 99 ∧
      ∃ s, weather_dict.lookup (7:Int) = some s ∧
        get_string_for_weather_code 7 = s) ∧
    (((9999:Int) < 0 ∨ (99:Int) < 9999) ∧
      get_string_for_weather_code 9999 = "unbekannt") :=
  ⟨⟨by decide, by decide, c4_translator_total.1 7 (by decide) (by decide)⟩,
    Or.inr (by decide), c4_translator_total.2 9999 (Or.inr (by decide))⟩

/-- C6: when geocoding yields no result, the service answers an
envelope with status `"error"` and code 400 whose message contains both
the supplied city and the supplied country. -/
theorem c6_geocode_failure (w : RawForecast) (current_hour : Nat)
    (city country : String) :
    (get_forecast none w current_hour city country).1.status = "error" ∧
    (get_forecast none w current_hour city country).2 = 400 ∧
    List.IsInfix city.data
      (get_forecast none w current_hour city country).1.message.data ∧
    List.IsInfix country.data
      (get_forecast none w current_hour city country).1.message.data := by
  refine ⟨rfl, rfl, ?_, ?_⟩
  · show List.IsInfix city.data
      ("We could not find the coordinates for the City: " ++ city ++
        " in the Country: " ++ country).data
    refine ⟨"We could not find the coordinates for the City: ".data,
      (" in the Country: " ++ country).data, ?_⟩
    simp [String.data_append, List.append_assoc]
  · show List.IsInfix country.data
      ("We could not find the coordinates for the City: " ++ city ++
        " in the Country: " ++ country).data
    refine ⟨("We could not find the coordinates for the City: " ++ city ++
      " in the Country: ").data, [], ?_⟩
    simp [String.data_append, List.append_assoc]

/-- C7: an HTTP request to `/get_forecast` with both the city and the
country parameter absent is answered with HTTP 400 and the envelope
whose message is exactly `"Missing parameters: city, country"` and whose
data is the still-empty object. -/
theorem c7_missing_both_params (geocode : Option Coordinates)
    (raw : RawForecast) (current_hour : Nat) :
    App.get_forecast geocode raw current_hour none none =
      App.AppResponse.json
        { status := "error"
          message := "Missing parameters: city, country"
          data := none } 400 := by
  rfl

/-- C9: with zero or one daily timestamps the daily pass iterates an
empty range, so it succeeds and contributes an empty daily mapping. -/
theorem c9_tiny_daily_empty (w : RawForecast) (current_hour : Nat)
    (hsmall : w.daily.time.length ≤ 1) :
    dailyPass w.daily = Except.ok [] ∧
    ∀ c, clean_weather_data w current_hour = Except.ok c → c.daily = [] := by
  have hzero : w.daily.time.length - 1 = 0 := by omega
  have hdp : dailyPass w.daily = Except.ok [] := by
    rw [dailyPass, hzero]
    rfl
  refine ⟨hdp, ?_⟩
  intro c hc
  rw [clean_weather_data, hdp] at hc
  cases hh : hourlyPass w.hourly current_hour with
  | error e => rw [hh] at hc; cases hc
  | ok hm => rw [hh] at hc; cases hc; rfl

/-- Witness for C9: a raw forecast with a single daily timestamp. -/
theorem c9_witness :
    wSmall.daily.time.length ≤ 1 ∧
    (dailyPass wSmall.daily = Except.ok [] ∧
      ∀ c, clean_weather_data wSmall 5 = Except.ok c → c.daily = []) :=
  ⟨by decide, c9_tiny_daily_empty wSmall 5 (by decide)⟩

/-- C1 (amended): for a raw forecast whose hourly arrays all have length
at least `current_hour + 12` and whose twelve referenced hourly
timestamps are pairwise distinct, the hourly mapping produced by the
cleaning operation has exactly 12 keys, namely
`hourly.time[current_hour]` through `hourly.time[current_hour + 11]`,
and each key's record is built from the same index of the corresponding
hourly arrays. -/
theorem c1_hourly_mapping_twelve_keys (w : RawForecast) (current_hour : Nat)
    (h1 : current_hour + 12 ≤ w.hourly.time.length)
    (h2 : current_hour + 12 ≤ w.hourly.temperature_2m.length)
    (h3 : current_hour + 12 ≤ w.hourly.precipitation.length)
    (h4 : current_hour + 12 ≤ w.hourly.weathercode.length)
    (h5 : current_hour + 12 ≤ w.hourly.windspeed_10m.length)
    (h6 : current_hour + 12 ≤ w.hourly.winddirection_10m.length)
    (h7 : current_hour + 12 ≤ w.hourly.pressure_msl.length)
    (h8 : current_hour + 12 ≤ w.hourly.relativehumidity_2m.length)
    (hdistinct : ((w.hourly.time.drop current_hour).take 12).Nodup) :
    ∃ m, hourlyPass w.hourly current_hour = Except.ok m ∧
      (∀ c, clean_weather_data w current_hour = Except.ok c →
        c.hourly = m) ∧
      dictKeys m = (w.hourly.time.drop current_hour).take 12 ∧
      (dictKeys m).length = 12 ∧
      ∀ j, j < 12 →
        m[j]? = some (w.hourly.time.getD (current_hour + j) "",
          hourlyRecD w.hourly (current_hour + j)) := by
  have hmem : ∀ i ∈ List.range' current_hour 12, i < current_hour + 12 :=
    fun i hi => (List.mem_range'_1.mp hi).2
  have hkey : ∀ i ∈ List.range' current_hour 12,
      w.hourly.time[i]? = some (w.hourly.time.getD i "") := by
    intro i hi
    have hlt : i < w.hourly.time.length := lt_of_lt_of_le (hmem i hi) h1
    rw [List.getD_eq_getElem?_getD, List.getElem?_eq_getElem hlt]
    rfl
  have hrec : ∀ i ∈ List.range' current_hour 12,
      mkHourlyRec w.hourly i = some (hourlyRecD w.hourly i) := fun i hi =>
    mkHourlyRec_eq_some w.hourly i
      (lt_of_lt_of_le (hmem i hi) h2) (lt_of_lt_of_le (hmem i hi) h3)
      (lt_of_lt_of_le (hmem i hi) h4) (lt_of_lt_of_le (hmem i hi) h5)
      (lt_of_lt_of_le (hmem i hi) h6) (lt_of_lt_of_le (hmem i hi) h7)
      (lt_of_lt_of_le (hmem i hi) h8)
  have hslice : (w.hourly.time.drop current_hour).take 12 =
      (List.range' current_hour 12).map fun i => w.hourly.time.getD i "" :=
    take_drop_eq_map_getD _ 12 current_hour h1
  have hnd : ((List.range' current_hour 12).map
      fun i => w.hourly.time.getD i "").Nodup := by
    rw [← hslice]
    exact hdistinct
  have hbuild := buildGo_eq_append (fun i => w.hourly.time[i]?)
    (mkHourlyRec w.hourly) (fun i => w.hourly.time.getD i "")
    (hourlyRecD w.hourly) (List.range' current_hour 12) [] hkey hrec
    (by intro i hi; simp [dictKeys]) hnd
  have hhp : hourlyPass w.hourly current_hour = Except.ok
      ((List.range' current_hour 12).map
        fun i => (w.hourly.time.getD i "", hourlyRecD w.hourly i)) := by
    rw [hourlyPass]
    simpa using hbuild
  refine ⟨_, hhp, ?_, ?_, ?_, ?_⟩
  · intro c hc
    rw [clean_weather_data] at hc
    cases hd : dailyPass w.daily with
    | error e => rw [hd] at hc; cases hc
    | ok dm =>
      rw [hd, hhp] at hc
      cases hc
      rfl
  · rw [hslice]
    simp [dictKeys]
  · simp [dictKeys, List.length_range']
  · intro j hj
    rw [List.getElem?_map, List.getElem?_range' _ _ hj]
    simp

/-- Witness for C1: the sample payload with thirteen distinct hourly
timestamps at current hour 0. -/
theorem c1_witness :
    (0 + 12 ≤ wExample.hourly.time.length) ∧
    ((wExample.hourly.time.drop 0).take 12).Nodup ∧
    ∃ m, hourlyPass wExample.hourly 0 = Except.ok m ∧
      (∀ c, clean_weather_data wExample 0 = Except.ok c →
        c.hourly = m) ∧
      dictKeys m = (wExample.hourly.time.drop 0).take 12 ∧
      (dictKeys m).length = 12 ∧
      ∀ j, j < 12 →
        m[j]? = some (wExample.hourly.time.getD (0 + j) "",
          hourlyRecD wExample.hourly (0 + j)) :=
  ⟨by decide, by decide,
    c1_hourly_mapping_twelve_keys wExample 0 (by decide) (by decide)
      (by decide) (by decide) (by decide) (by decide) (by decide) (by decide)
      (by decide)⟩

/-- Counterexample to C1 as frozen: `wDup` satisfies the claim's length
hypothesis (every hourly array has the 12 required entries from hour 0),
yet because all twelve timestamps are the same string the hourly mapping
ends up with a single key, not 12. -/
theorem c1_counterexample :
    (0 + 12 ≤ wDup.hourly.time.length) ∧
    (0 + 12 ≤ wDup.hourly.temperature_2m.length) ∧
    (0 + 12 ≤ wDup.hourly.precipitation.length) ∧
    (0 + 12 ≤ wDup.hourly.weathercode.length) ∧
    (0 + 12 ≤ wDup.hourly.windspeed_10m.length) ∧
    (0 + 12 ≤ wDup.hourly.winddirection_10m.length) ∧
    (0 + 12 ≤ wDup.hourly.pressure_msl.length) ∧
    (0 + 12 ≤ wDup.hourly.relativehumidity_2m.length) ∧
    ((hourlyPass wDup.hourly 0).toOption.map fun m => (dictKeys m).length) =
      some 1 ∧
    (1 : Nat) ≠ 12 := by
  decide

/-- C3 (amended): for a raw forecast with `N` daily timestamps, daily
arrays of matching length, and the first `N - 1` timestamps pairwise
distinct, the daily mapping produced by the cleaning operation has
exactly `N - 1` keys, namely `daily.time[0]` through `daily.time[N-2]`
(the last raw daily entry is dropped), and each key's record is built
from the same index of the corresponding daily arrays. -/
theorem c3_daily_mapping_drops_last (w : RawForecast)
    (h2 : w.daily.temperature_2m_max.length = w.daily.time.length)
    (h3 : w.daily.temperature_2m_min.length = w.daily.time.length)
    (h4 : w.daily.precipitation_sum.length = w.daily.time.length)
    (h5 : w.daily.weathercode.length = w.daily.time.length)
    (h6 : w.daily.windspeed_10m_max.length = w.daily.time.length)
    (h7 : w.daily.winddirection_10m_dominant.length = w.daily.time.length)
    (hdistinct : (w.daily.time.take (w.daily.time.length - 1)).Nodup) :
    ∃ m, dailyPass w.daily = Except.ok m ∧
      (∀ current_hour c, clean_weather_data w current_hour = Except.ok c →
        c.daily = m) ∧
      dictKeys m = w.daily.time.take (w.daily.time.length - 1) ∧
      (dictKeys m).length = w.daily.time.length - 1 ∧
      ∀ j, j < w.daily.time.length - 1 →
        m[j]? = some (w.daily.time.getD j "", dailyRecD w.daily j) := by
  have hmem : ∀ i ∈ List.range (w.daily.time.length - 1),
      i < w.daily.time.length - 1 := fun i hi => List.mem_range.mp hi
  have hkey : ∀ i ∈ List.range (w.daily.time.length - 1),
      w.daily.time[i]? = some (w.daily.time.getD i "") := by
    intro i hi
    have hlt : i < w.daily.time.length := by have := hmem i hi; omega
    rw [List.getD_eq_getElem?_getD, List.getElem?_eq_getElem hlt]
    rfl
  have hrec : ∀ i ∈ List.range (w.daily.time.length - 1),
      mkDailyRec w.daily i = some (dailyRecD w.daily i) := by
    intro i hi
    have := hmem i hi
    exact mkDailyRec_eq_some w.daily i (by omega) (by omega) (by omega)
      (by omega) (by omega) (by omega)
  have hslice : w.daily.time.take (w.daily.time.length - 1) =
      (List.range (w.daily.time.length - 1)).map
        fun i => w.daily.time.getD i "" := by
    rw [List.range_eq_range']
    rw [← take_drop_eq_map_getD _ (w.daily.time.length - 1) 0 (by omega)]
    rw [List.drop_zero]
  have hnd : ((List.range (w.daily.time.length - 1)).map
      fun i => w.daily.time.getD i "").Nodup := by
    rw [← hslice]
    exact hdistinct
  have hbuild := buildGo_eq_append (fun i => w.daily.time[i]?)
    (mkDailyRec w.daily) (fun i => w.daily.time.getD i "")
    (dailyRecD w.daily) (List.range (w.daily.time.length - 1)) [] hkey hrec
    (by intro i hi; simp [dictKeys]) hnd
  have hdp : dailyPass w.daily = Except.ok
      ((List.range (w.daily.time.length - 1)).map
        fun i => (w.daily.time.getD i "", dailyRecD w.daily i)) := by
    rw [dailyPass]
    simpa using hbuild
  refine ⟨_, hdp, ?_, ?_, ?_, ?_⟩
  · intro current_hour c hc
    rw [clean_weather_data, hdp] at hc
    cases hh : hourlyPass w.hourly current_hour with
    | error e => rw [hh] at hc; cases hc
    | ok hm => rw [hh] at hc; cases hc; rfl
  · rw [hslice]
    simp [dictKeys]
  · simp [dictKeys]
  · intro j hj
    rw [List.getElem?_map, List.range_eq_range', List.getElem?_range' _ _ hj]
    simp

/-- Witness for C3: the sample payload with two daily timestamps yields
the one-key daily mapping `d0`. -/
theorem c3_witness :
    wExample.daily.temperature_2m_max.length = wExample.daily.time.length ∧
    (wExample.daily.time.take (wExample.daily.time.length - 1)).Nodup ∧
    ∃ m, dailyPass wExample.daily = Except.ok m ∧
      (∀ current_hour c,
        clean_weather_data wExample current_hour = Except.ok c →
        c.daily = m) ∧
      dictKeys m = wExample.daily.time.take (wExample.daily.time.length - 1) ∧
      (dictKeys m).length = wExample.daily.time.length - 1 ∧
      ∀ j, j < wExample.daily.time.length - 1 →
        m[j]? = some (wExample.daily.time.getD j "",
          dailyRecD wExample.daily j) :=
  ⟨by decide, by decide,
    c3_daily_mapping_drops_last wExample (by decide) (by decide) (by decide)
      (by decide) (by decide) (by decide) (by decide)⟩

/-- Counterexample to C3 as frozen: `wDupDaily` has `N = 3` daily
timestamps and matching array lengths, but its first two timestamps are
the same string, so the daily mapping has a single key instead of
`N - 1 = 2`. -/
theorem c3_counterexample :
    wDupDaily.daily.time.length = 3 ∧
    wDupDaily.daily.temperature_2m_max.length = 3 ∧
    wDupDaily.daily.temperature_2m_min.length = 3 ∧
    wDupDaily.daily.precipitation_sum.length = 3 ∧
    wDupDaily.daily.weathercode.length = 3 ∧
    wDupDaily.daily.windspeed_10m_max.length = 3 ∧
    wDupDaily.daily.winddirection_10m_dominant.length = 3 ∧
    ((dailyPass wDupDaily.daily).toOption.map fun m => (dictKeys m).length) =
      some 1 ∧
    (1 : Nat) ≠ 3 - 1 := by
  decide

/-- C2: if any hourly array referenced by the hourly pass is shorter
than `current_hour + 12`, cleaning fails with the out-of-range error
(never returning a partial hourly mapping), and the service surfaces the
failure as an envelope with status `"error"`, the failure detail as
message, and code 500. -/
theorem c2_short_hourly_fails (geo : Coordinates) (w : RawForecast)
    (current_hour : Nat) (city country : String)
    (hshort : w.hourly.time.length < current_hour + 12 ∨
      w.hourly.temperature_2m.length < current_hour + 12 ∨
      w.hourly.precipitation.length < current_hour + 12 ∨
      w.hourly.weathercode.length < current_hour + 12 ∨
      w.hourly.windspeed_10m.length < current_hour + 12 ∨
      w.hourly.winddirection_10m.length < current_hour + 12 ∨
      w.hourly.pressure_msl.length < current_hour + 12 ∨
      w.hourly.relativehumidity_2m.length < current_hour + 12) :
    clean_weather_data w current_hour =
      Except.error "list index out of range" ∧
    get_forecast (some geo) w current_hour city country =
      ({ status := "error", message := "list index out of range",
         data := none }, 500) := by
  have hclean : clean_weather_data w current_hour =
      Except.error "list index out of range" := by
    cases hc : clean_weather_data w current_hour with
    | error e =>
      have he := clean_weather_data_error_string w current_hour e hc
      subst he
      rfl
    | ok c =>
      exfalso
      rw [clean_weather_data] at hc
      cases hd : dailyPass w.daily with
      | error e1 => rw [hd] at hc; cases hc
      | ok dm =>
        rw [hd] at hc
        cases hh : hourlyPass w.hourly current_hour with
        | error e2 => rw [hh] at hc; cases hc
        | ok hm =>
          have hall := buildGo_ok_mem _ _ _ _ _ hh
          rcases hshort with h|h|h|h|h|h|h|h
          · have hi : max current_hour w.hourly.time.length ∈
                List.range' current_hour 12 :=
              List.mem_range'_1.mpr ⟨Nat.le_max_left _ _, by omega⟩
            obtain ⟨a, ha⟩ := Option.isSome_iff_exists.mp (hall _ hi).1
            have := (List.getElem?_eq_some.mp ha).1
            omega
          · have hi : max current_hour w.hourly.temperature_2m.length ∈
                List.range' current_hour 12 :=
              List.mem_range'_1.mpr ⟨Nat.le_max_left _ _, by omega⟩
            have hb := mkHourlyRec_isSome_bounds _ _ (hall _ hi).2
            omega
          · have hi : max current_hour w.hourly.precipitation.length ∈
                List.range' current_hour 12 :=
              List.mem_range'_1.mpr ⟨Nat.le_max_left _ _, by omega⟩
            have hb := mkHourlyRec_isSome_bounds _ _ (hall _ hi).2
            omega
          · have hi : max current_hour w.hourly.weathercode.length ∈
                List.range' current_hour 12 :=
              List.mem_range'_1.mpr ⟨Nat.le_max_left _ _, by omega⟩
            have hb := mkHourlyRec_isSome_bounds _ _ (hall _ hi).2
            omega
          · have hi : max current_hour w.hourly.windspeed_10m.length ∈
                List.range' current_hour 12 :=
              List.mem_range'_1.mpr ⟨Nat.le_max_left _ _, by omega⟩
            have hb := mkHourlyRec_isSome_bounds _ _ (hall _ hi).2
            omega
          · have hi : max current_hour w.hourly.winddirection_10m.length ∈
                List.range' current_hour 12 :=
              List.mem_range'_1.mpr ⟨Nat.le_max_left _ _, by omega⟩
            have hb := mkHourlyRec_isSome_bounds _ _ (hall _ hi).2
            omega
          · have hi : max current_hour w.hourly.pressure_msl.length ∈
                List.range' current_hour 12 :=
              List.mem_range'_1.mpr ⟨Nat.le_max_left _ _, by omega⟩
            have hb := mkHourlyRec_isSome_bounds _ _ (hall _ hi).2
            omega
          · have hi : max current_hour w.hourly.relativehumidity_2m.length ∈
                List.range' current_hour 12 :=
              List.mem_range'_1.mpr ⟨Nat.le_max_left _ _, by omega⟩
            have hb := mkHourlyRec_isSome_bounds _ _ (hall _ hi).2
            omega
  refine ⟨hclean, ?_⟩
  rw [get_forecast,
    show get_coordinates_for_city (some geo) city country =
      Except.ok geo from rfl, hclean]

/-- Witness for C2: the 3-entry hourly payload at current hour 0. -/
theorem c2_witness :
    wShort.hourly.time.length < 0 + 12 ∧
    (clean_weather_data wShort 0 = Except.error "list index out of range" ∧
      get_forecast (some coordExample) wShort 0 "Berlin" "Germany" =
        ({ status := "error", message := "list index out of range",
           data := none }, 500)) :=
  ⟨by decide,
    c2_short_hourly_fails coordExample wShort 0 "Berlin" "Germany"
      (Or.inl (by decide))⟩

/-- C5: with geocoding successful and a well-formed raw forecast having
at least 13 hourly entries from the current hour onward, the service
returns status `"success"`, code 200, the fixed confirmation message,
the echoed city and country, and an empty `ai_text`. -/
theorem c5_success_envelope (geo : Coordinates) (w : RawForecast)
    (current_hour : Nat) (city country : String)
    (hd2 : w.daily.temperature_2m_max.length = w.daily.time.length)
    (hd3 : w.daily.temperature_2m_min.length = w.daily.time.length)
    (hd4 : w.daily.precipitation_sum.length = w.daily.time.length)
    (hd5 : w.daily.weathercode.length = w.daily.time.length)
    (hd6 : w.daily.windspeed_10m_max.length = w.daily.time.length)
    (hd7 : w.daily.winddirection_10m_dominant.length = w.daily.time.length)
    (hh2 : w.hourly.temperature_2m.length = w.hourly.time.length)
    (hh3 : w.hourly.precipitation.length = w.hourly.time.length)
    (hh4 : w.hourly.weathercode.length = w.hourly.time.length)
    (hh5 : w.hourly.windspeed_10m.length = w.hourly.time.length)
    (hh6 : w.hourly.winddirection_10m.length = w.hourly.time.length)
    (hh7 : w.hourly.pressure_msl.length = w.hourly.time.length)
    (hh8 : w.hourly.relativehumidity_2m.length = w.hourly.time.length)
    (hlen : current_hour + 13 ≤ w.hourly.time.length) :
    ∃ c, clean_weather_data w current_hour = Except.ok c ∧
      get_forecast (some geo) w current_hour city country =
        ({ status := "success"
           message := "The weather data was successfully retrieved"
           data := some
             { hourly := c.hourly
               daily := c.daily
               city := city
               country := country
               ai_text := "" } }, 200) := by
  have hdall : ∀ i ∈ List.range (w.daily.time.length - 1),
      ((fun i => w.daily.time[i]?) i).isSome ∧
        (mkDailyRec w.daily i).isSome := by
    intro i hi
    have hilt := List.mem_range.mp hi
    constructor
    · show (w.daily.time[i]?).isSome
      rw [List.getElem?_eq_getElem (by omega)]
      rfl
    · rw [mkDailyRec_eq_some w.daily i (by omega) (by omega) (by omega)
        (by omega) (by omega) (by omega)]
      rfl
  have hhall : ∀ i ∈ List.range' current_hour 12,
      ((fun i => w.hourly.time[i]?) i).isSome ∧
        (mkHourlyRec w.hourly i).isSome := by
    intro i hi
    have hilt := (List.mem_range'_1.mp hi).2
    constructor
    · show (w.hourly.time[i]?).isSome
      rw [List.getElem?_eq_getElem (by omega)]
      rfl
    · rw [mkHourlyRec_eq_some w.hourly i (by omega) (by omega) (by omega)
        (by omega) (by omega) (by omega) (by omega)]
      rfl
  obtain ⟨dm, hdm⟩ := buildGo_ok_exists (fun i => w.daily.time[i]?)
    (mkDailyRec w.daily) (List.range (w.daily.time.length - 1)) [] hdall
  obtain ⟨hm, hhm⟩ := buildGo_ok_exists (fun i => w.hourly.time[i]?)
    (mkHourlyRec w.hourly) (List.range' current_hour 12) [] hhall
  have hdp : dailyPass w.daily = Except.ok dm := hdm
  have hhp : hourlyPass w.hourly current_hour = Except.ok hm := hhm
  have hcl : clean_weather_data w current_hour =
      Except.ok { hourly := hm, daily := dm } := by
    rw [clean_weather_data, hdp, hhp]
  refine ⟨{ hourly := hm, daily := dm }, hcl, ?_⟩
  rw [get_forecast,
    show get_coordinates_for_city (some geo) city country =
      Except.ok geo from rfl, hcl]
  rfl

/-- Witness for C5: the well-formed sample payload at current hour 0
with the geocoder answering sample coordinates. -/
theorem c5_witness :
    wExample.daily.temperature_2m_max.length = wExample.daily.time.length ∧
    0 + 13 ≤ wExample.hourly.time.length ∧
    ∃ c, clean_weather_data wExample 0 = Except.ok c ∧
      get_forecast (some coordExample) wExample 0 "Berlin" "Germany" =
        ({ status := "success"
           message := "The weather data was successfully retrieved"
           data := some
             { hourly := c.hourly
               daily := c.daily
               city := "Berlin"
               country := "Germany"
               ai_text := "" } }, 200) :=
  ⟨by decide, by decide,
    c5_success_envelope coordExample wExample 0 "Berlin" "Germany"
      (by decide) (by decide) (by decide) (by decide) (by decide) (by decide)
      (by decide) (by decide) (by decide) (by decide) (by decide) (by decide)
      (by decide) (by decide)⟩

/-- C8: on every error return of the service (code 400 or 500) the
envelope's data field is still the initial empty object. -/
theorem c8_error_data_empty (geocode : Option Coordinates) (w : RawForecast)
    (current_hour : Nat) (city country : String)
    (herr : (get_forecast geocode w current_hour city country).2 = 400 ∨
      (get_forecast geocode w current_hour city country).2 = 500) :
    (get_forecast geocode w current_hour city country).1.data = none := by
  cases geocode with
  | none => rfl
  | some geo =>
    cases hc : clean_weather_data w current_hour with
    | error e =>
      rw [get_forecast,
        show get_coordinates_for_city (some geo) city country =
          Except.ok geo from rfl, hc]
    | ok c =>
      rw [get_forecast,
        show get_coordinates_for_city (some geo) city country =
          Except.ok geo from rfl, hc] at herr
      simp at herr

/-- Witness for C8: the geocoding-failure return carries code 400 and
empty data. -/
theorem c8_witness :
    ((get_forecast none wExample 0 "Berlin" "Germany").2 = 400 ∨
      (get_forecast none wExample 0 "Berlin" "Germany").2 = 500) ∧
    (get_forecast none wExample 0 "Berlin" "Germany").1.data = none :=
  ⟨Or.inl rfl,
    c8_error_data_empty none wExample 0 "Berlin" "Germany" (Or.inl rfl)⟩

/-- C10: every return of the service has status `"success"` or
`"error"`, status `"success"` exactly when the code is 200 (error
returns carry 400 or 500), and a non-empty message. -/
theorem c10_envelope_partition (geocode : Option Coordinates)
    (w : RawForecast) (current_hour : Nat) (city country : String) :
    ((get_forecast geocode w current_hour city country).1.status =
        "success" ∨
      (get_forecast geocode w current_hour city country).1.status =
        "error") ∧
    ((get_forecast geocode w current_hour city country).1.status =
        "success" ↔
      (get_forecast geocode w current_hour city country).2 = 200) ∧
    ((get_forecast geocode w current_hour city country).2 = 200 ∨
      (get_forecast geocode w current_hour city country).2 = 400 ∨
      (get_forecast geocode w current_hour city country).2 = 500) ∧
    (get_forecast geocode w current_hour city country).1.message ≠ "" := by
  cases geocode with
  | none =>
    refine ⟨Or.inr rfl, ⟨fun h => ?_, fun h => ?_⟩, Or.inr (Or.inl rfl),
      coords_message_ne_empty city country⟩
    · simp [get_forecast, get_coordinates_for_city] at h
    · simp [get_forecast, get_coordinates_for_city] at h
  | some geo =>
    cases hc : clean_weather_data w current_hour with
    | error e =>
      have he := clean_weather_data_error_string w current_hour e hc
      subst he
      rw [get_forecast,
        show get_coordinates_for_city (some geo) city country =
          Except.ok geo from rfl, hc]
      refine ⟨Or.inr rfl, ⟨fun h => ?_, fun h => ?_⟩, Or.inr (Or.inr rfl),
        fun h => ?_⟩
      · simp at h
      · simp at h
      · simp at h
    | ok c =>
      rw [get_forecast,
        show get_coordinates_for_city (some geo) city country =
          Except.ok geo from rfl, hc]
      exact ⟨Or.inl rfl, ⟨fun _ => rfl, fun _ => rfl⟩, Or.inl rfl,
        fun h => by simp at h⟩
